import Mathlib

/-!
Verification of the openbrowser worker (src/index.ts): a session-aware
reverse proxy in front of per-session headless-browser backends speaking the
Chrome DevTools Protocol.  The definitions below are a shallow embedding of
the request-routing, authentication, discovery, and rewrite logic of
BrowserRequestHandler; the theorems settle the specification claims.

Backend interactions (container fetches) are modelled as oracles supplied in
a World structure, since the worker treats them as opaque collaborators.
-/

namespace OpenBrowser

/-- JSON value model for the JSON bodies the worker builds (discovery payloads,
structured error bodies). -/
inductive Json where
  | str (s : String)
  | null
  | obj (fields : List (String × Json))

/-- Response body: plain text (new Response(text, ...)) or JSON
(Response.json / JSON.stringify bodies). -/
inductive Body where
  | text (s : String)
  | json (j : Json)

/-- Model of an outgoing Response: status, headers (names lowercase, as the
platform Headers class normalizes them), and body. -/
structure ResponseModel where
  status : Nat
  headers : List (String × String)
  body : Body

/-- Field lookup on a JSON object, none on non-objects. -/
def Json.getField : Json → String → Option Json
  | .obj fields, n => (fields.find? (fun p => p.1 == n)).map (fun p => p.2)
  | _, _ => none

/-- Field lookup on a response body when that body is JSON. -/
def bodyField (r : ResponseModel) (n : String) : Option Json :=
  match r.body with
  | .json j => j.getField n
  | .text _ => none

/-- The backend-internal loopback address 127.0.0.1:3000, as a character
list: the pattern of the regular expression in rewriteHost. -/
def loopbackPat : List Char :=
  ['1', '2', '7', '.', '0', '.', '0', '.', '1', ':', '3', '0', '0', '0']

/-- Substring test on character lists; subContains pat l is true when pat
occurs contiguously inside l (the semantics of String.prototype.includes). -/
def subContains (pat : List Char) : List Char → Bool
  | [] => pat.isEmpty
  | c :: rest => pat.isPrefixOf (c :: rest) || subContains pat rest

/-- JavaScript s.includes(sub). -/
def jsIncludes (sub s : String) : Bool := subContains sub.data s.data

/-- Fuel-indexed global replacement of loopbackPat by rep: scans left to
right, replaces each non-overlapping occurrence, and does not rescan the
replacement text (the semantics of text.replace(/127\.0\.0\.1:3000/g, rep)).
The fuel only serves structural recursion; replaceLoopback supplies enough. -/
def replaceLoopbackFuel (rep : List Char) : Nat → List Char → List Char
  | 0, l => l
  | _ + 1, [] => []
  | fuel + 1, c :: rest =>
    if loopbackPat.isPrefixOf (c :: rest) then
      rep ++ replaceLoopbackFuel rep fuel ((c :: rest).drop loopbackPat.length)
    else
      c :: replaceLoopbackFuel rep fuel rest

/-- Global replacement of the loopback address: each step of the scan
consumes at least one character, so fuel equal to the length suffices. -/
def replaceLoopback (rep l : List Char) : List Char :=
  replaceLoopbackFuel rep l.length l

/-- BrowserRequestHandler.rewriteHost: replaces every occurrence of
127.0.0.1:3000 in text with the externally visible host. -/
def rewriteHost (extHost text : String) : String :=
  String.mk (replaceLoopback extHost.data text.data)

/-- Model of a parsed URL (the result of new URL(...) on a well-formed URL
string): scheme, host (including port), pathname, and search parameters. -/
structure UrlModel where
  scheme : String
  host : String
  pathname : String
  params : List (String × String)
deriving DecidableEq

/-- URLSearchParams.set: replace the value of the first parameter with the
given name, delete the other occurrences, or append when absent. -/
def setParam : List (String × String) → String → String → List (String × String)
  | [], n, v => [(n, v)]
  | (k, w) :: rest, n, v =>
    if k == n then (k, v) :: rest.filter (fun p => !(p.1 == n))
    else (k, w) :: setParam rest n v

/-- URLSearchParams.get: value of the first parameter with the given name. -/
def getParam (ps : List (String × String)) (n : String) : Option String :=
  (ps.find? (fun p => p.1 == n)).map (fun p => p.2)

/-- Serialization of the search parameters: empty, or ? followed by
&-separated name=value pairs. -/
def paramsToStr (ps : List (String × String)) : String :=
  match ps with
  | [] => ""
  | _ :: _ => "?" ++ String.intercalate "&" (ps.map (fun p => p.1 ++ "=" ++ p.2))

/-- URL.toString on the model. -/
def UrlModel.toStr (u : UrlModel) : String :=
  u.scheme ++ "://" ++ u.host ++ u.pathname ++ paramsToStr u.params

/-- Setting one search parameter of a URL (wsUrl.searchParams.set(...)). -/
def setUrlParam (u : UrlModel) (n v : String) : UrlModel :=
  { u with params := setParam u.params n v }

/-- The webSocketDebuggerUrl transformation of handleJsonVersionRequest:
parse (already-parsed here as a UrlModel), set the sessionId parameter,
serialize, then rewrite the loopback host to the external host. -/
def rewriteDebuggerUrl (extHost sessionId : String) (u : UrlModel) : String :=
  rewriteHost extHost (UrlModel.toStr (setUrlParam u "sessionId" sessionId))

/-- Characters remaining after the first scheme separator "://", if any:
used to read the host component off a serialized URL. -/
def afterSchemeSep : List Char → Option (List Char)
  | ':' :: '/' :: '/' :: rest => some rest
  | _ :: rest => afterSchemeSep rest
  | [] => none

/-- Characters of a URL authority up to the first path or query delimiter. -/
def takeUntilDelim : List Char → List Char
  | [] => []
  | c :: rest => if c == '/' || c == '?' then [] else c :: takeUntilDelim rest

/-- Host component of a serialized URL string, read off textually; this
interprets the phrase "the URL's host" used by the specification claims. -/
def hostOfSerialized (s : String) : Option String :=
  (afterSchemeSep s.data).map (fun l => String.mk (takeUntilDelim l))

/-- Worker environment bindings consumed by the core: the DEV flag and the
shared API key, each possibly undefined. -/
structure EnvModel where
  DEV : Option String
  API_KEY : Option String
deriving DecidableEq

/-- JavaScript falsiness of a string-or-null/undefined value: null,
undefined, and the empty string are falsy. -/
def jsFalsy : Option String → Bool
  | none => true
  | some s => s == ""

/-- BrowserRequestHandler.extractSessionId: the JavaScript expression
headers.get("X-Session-ID") || searchParams.get("sessionId"), where || skips
a null or empty left operand. -/
def extractSessionId (hdr q : Option String) : Option String :=
  match hdr with
  | some s => if s == "" then q else some s
  | none => q

/-- BrowserRequestHandler.isJsonVersionRequest: exact pathname comparison
with the canonical discovery path, with or without a trailing slash. -/
def isJsonVersionRequest (pathname : String) : Bool :=
  pathname == "/json/version" || pathname == "/json/version/"

/-- Authentication decision: status plus error message. -/
structure AuthDecision where
  isAuthenticated : Bool
  message : String
deriving DecidableEq

/-- BrowserRequestHandler.checkAuthentication: DEV === "true" bypasses;
otherwise a falsy API_KEY fails closed with the configuration-error message;
otherwise the apiKey query parameter must be truthy and strictly equal to
the configured key. -/
def checkAuthentication (env : EnvModel) (apiKeyParam : Option String) : AuthDecision :=
  if env.DEV == some "true" then { isAuthenticated := true, message := "" }
  else if jsFalsy env.API_KEY then
    { isAuthenticated := false
      message := "API_KEY not configured. See README.md for instructions." }
  else
    match apiKeyParam with
    | some k =>
      if (k != "") && (some k == env.API_KEY) then { isAuthenticated := true, message := "" }
      else
        { isAuthenticated := false
          message := "Invalid or missing API key. Use ?apiKey=YOUR_KEY" }
    | none =>
      { isAuthenticated := false
        message := "Invalid or missing API key. Use ?apiKey=YOUR_KEY" }

/-- Parsed discovery payload returned by the backend: the
webSocketDebuggerUrl field when present and truthy (as a parsed URL, since
the worker immediately runs it through new URL), plus the other fields. -/
structure DiscoveryPayload where
  wsUrl : Option UrlModel
  rest : List (String × Json)

/-- Buffered backend response seen by the discovery handler: the
content-type header, the body read as text, and the outcome of parsing the
body as JSON (resp.json() throws on malformed JSON). -/
structure BackendResp where
  contentType : Option String
  textBody : String
  jsonBody : Except String DiscoveryPayload

/-- Outcome of one containerFetch call: a thrown error or a response. -/
inductive FetchOutcome where
  | thrown (msg : String)
  | resp (r : BackendResp)

/-- Buffered backend response seen by the generic proxy path. -/
structure BackendHttpResp where
  status : Nat
  headers : List (String × String)
  textBody : String
deriving DecidableEq

/-- Response.json(data): JSON body with content-type application/json, as
the 429 branch also constructs explicitly. -/
def jsonResponse (status : Nat) (j : Json) : ResponseModel :=
  { status := status, headers := [("content-type", "application/json")], body := .json j }

/-- Optional-chained contentType?.includes("application/json"), with a
missing header giving undefined and hence a falsy result. -/
def contentTypeIncludesJson : Option String → Bool
  | none => false
  | some ct => jsIncludes "application/json" ct

/-- Upstream URL built for containerFetch from the request's path/query. -/
def upstreamUrl (pathname search : String) : String :=
  "http://127.0.0.1:3000" ++ pathname ++ search

/-- BrowserRequestHandler.handleJsonVersionRequest, after the session mint
and container lookup, as a function of the single containerFetch outcome:
thrown errors are caught into a 500; non-JSON bodies are scanned for the two
capacity-exhaustion phrases giving a 429 or else a generic 500; JSON bodies
have the webSocketDebuggerUrl field (when present) rewritten. -/
def handleJsonVersionModel (extHost mintedId : String) (outcome : FetchOutcome) : ResponseModel :=
  match outcome with
  | .thrown e =>
    { status := 500, headers := [], body := .text ("Failed to initialize browser container: " ++ e) }
  | .resp r =>
    if !(contentTypeIncludesJson r.contentType) then
      if jsIncludes "no Container instance available" r.textBody
          || jsIncludes "max concurrent instance count" r.textBody then
        { status := 429
          headers := [("content-type", "application/json")]
          body := .json (.obj
            [("error", .str "Too many concurrent browser sessions"),
             ("message", .str "Maximum concurrent container limit reached. Please try again later."),
             ("details", .str r.textBody)]) }
      else
        { status := 500, headers := []
          body := .text ("Container initialization failed: " ++ r.textBody) }
    else
      match r.jsonBody with
      | .error e =>
        { status := 500, headers := []
          body := .text ("Failed to initialize browser container: " ++ e) }
      | .ok payload =>
        match payload.wsUrl with
        | some u =>
          jsonResponse 200 (.obj (payload.rest ++
            [("webSocketDebuggerUrl", .str (rewriteDebuggerUrl extHost mintedId u))]))
        | none => jsonResponse 200 (.obj payload.rest)

/-- Record of one backend call against a per-call oracle, returning the
outcome together with the next call index. -/
def callBackend (oracle : Nat → FetchOutcome) (callsSoFar : Nat) : FetchOutcome × Nat :=
  (oracle callsSoFar, callsSoFar + 1)

/-- Discovery handler with an explicit backend-call trace: exactly one
containerFetch is issued (the returned count), and its outcome fully
determines the response; there is no retry loop in the source. -/
def handleJsonVersionTrace (extHost mintedId : String) (oracle : Nat → FetchOutcome) :
    ResponseModel × Nat :=
  match callBackend oracle 0 with
  | (outcome, calls) => (handleJsonVersionModel extHost mintedId outcome, calls)

/-- ASCII-insensitive lowering of a header name, as the Headers class
normalizes names. -/
def toLowerStr (s : String) : String := String.mk (s.data.map Char.toLower)

/-- new Headers(h): header names are normalized to lowercase. -/
def headersOf (raw : List (String × String)) : List (String × String) :=
  raw.map (fun p => (toLowerStr p.1, p.2))

/-- Headers.delete(name): removes every header with the (normalized) name. -/
def headerDelete (hs : List (String × String)) (name : String) : List (String × String) :=
  hs.filter (fun p => !(p.1 == toLowerStr name))

/-- Headers.get(name): first header with the (normalized) name. -/
def headerGet (hs : List (String × String)) (name : String) : Option String :=
  (hs.find? (fun p => p.1 == toLowerStr name)).map (fun p => p.2)

/-- BrowserRequestHandler.containerFetchWithRewrite as a function of the
buffered backend response: body text rewritten through rewriteHost, headers
copied minus content-length, status preserved. -/
def containerFetchWithRewrite (extHost : String) (resp : BackendHttpResp) : ResponseModel :=
  { status := resp.status
    headers := headerDelete (headersOf resp.headers) "content-length"
    body := .text (rewriteHost extHost resp.textBody) }

/-- Inbound request model: the request fields the worker reads. -/
structure ReqModel where
  method : String
  upgradeHeader : Option String
  xSessionId : Option String
  sessionIdParam : Option String
  apiKeyParam : Option String
  host : String
  pathname : String
  search : String
deriving DecidableEq

/-- External collaborators for one request: the minted randomUUID value and
the backend behaviors (indexed by upstream URL where the worker builds one). -/
structure World where
  mintedId : String
  discoveryOutcome : String → FetchOutcome
  proxyResp : String → BackendHttpResp
  wsResp : ResponseModel

/-- BrowserRequestHandler.handle: the full per-request decision tree of the
worker, including the (dead) plain-text 401 fallback of the source. -/
def handle (env : EnvModel) (req : ReqModel) (w : World) : ResponseModel :=
  let sessionId := extractSessionId req.xSessionId req.sessionIdParam
  if jsFalsy sessionId && isJsonVersionRequest req.pathname then
    let authResult := checkAuthentication env req.apiKeyParam
    if !authResult.isAuthenticated then
      if isJsonVersionRequest req.pathname then
        jsonResponse 401 (.obj
          [("error", .str "Authentication required"),
           ("message", .str authResult.message),
           ("instructions", .str "Add ?apiKey=YOUR_API_KEY to the URL or use Authorization header")])
      else { status := 401, headers := [], body := .text authResult.message }
    else
      handleJsonVersionModel req.host w.mintedId
        (w.discoveryOutcome (upstreamUrl req.pathname req.search))
  else if jsFalsy sessionId then
    { status := 400, headers := [], body := .text "Session ID required" }
  else if req.upgradeHeader == some "websocket" then
    w.wsResp
  else
    containerFetchWithRewrite req.host (w.proxyResp (upstreamUrl req.pathname req.search))

/-- The four per-request routing states of the RequestRouter. -/
inductive Route where
  | discovery
  | missingSession
  | websocket
  | proxy
deriving DecidableEq

/-- Classification of a request by the decision tree of handle. -/
def routeOf (req : ReqModel) : Route :=
  let sessionId := extractSessionId req.xSessionId req.sessionIdParam
  if jsFalsy sessionId && isJsonVersionRequest req.pathname then .discovery
  else if jsFalsy sessionId then .missingSession
  else if req.upgradeHeader == some "websocket" then .websocket
  else .proxy

/-! Helper lemmas. -/

/-- Appending data of strings is appending the character lists. -/
theorem str_data_append (a b : String) : (a ++ b).data = a.data ++ b.data := rfl

/-- The loopback pattern spells the internal address of the source regex. -/
theorem loopback_data : ("127.0.0.1:3000" : String).data = loopbackPat := by decide

/-- Every list is a Boolean prefix of itself extended on the right. -/
theorem isPrefixOf_append_self (l₁ l₂ : List Char) : l₁.isPrefixOf (l₁ ++ l₂) = true := by
  induction l₁ with
  | nil => simp [List.isPrefixOf]
  | cons c rest ih => simp [List.isPrefixOf, ih]

/-- Replacement is the identity on text without an occurrence of the pattern. -/
theorem replaceFuel_of_not_contains (rep : List Char) :
    ∀ (l : List Char) (fuel : Nat), subContains loopbackPat l = false →
      replaceLoopbackFuel rep fuel l = l := by
  intro l
  induction l with
  | nil => intro fuel _; cases fuel <;> rfl
  | cons c rest ih =>
    intro fuel h
    have h2 : loopbackPat.isPrefixOf (c :: rest) = false ∧
        subContains loopbackPat rest = false := by
      simpa [subContains, Bool.or_eq_false_iff] using h
    cases fuel with
    | zero => rfl
    | succ n => simp [replaceLoopbackFuel, h2.1, ih n h2.2]

/-- Scan step when the pattern matches at the head. -/
theorem replaceFuel_cons_match (rep : List Char) (fuel : Nat) (c : Char) (rest : List Char)
    (h : loopbackPat.isPrefixOf (c :: rest) = true) :
    replaceLoopbackFuel rep (fuel + 1) (c :: rest)
      = rep ++ replaceLoopbackFuel rep fuel ((c :: rest).drop loopbackPat.length) := by
  simp [replaceLoopbackFuel, h]

/-- Scan step when the pattern does not match at the head. -/
theorem replaceFuel_cons_skip (rep : List Char) (fuel : Nat) (c : Char) (rest : List Char)
    (h : loopbackPat.isPrefixOf (c :: rest) = false) :
    replaceLoopbackFuel rep (fuel + 1) (c :: rest) = c :: replaceLoopbackFuel rep fuel rest := by
  simp [replaceLoopbackFuel, h]

/-- The pattern starts with the character 1, so it cannot match at another head. -/
theorem isPrefixOf_cons_ne (c : Char) (rest : List Char) (hc : c ≠ '1') :
    loopbackPat.isPrefixOf (c :: rest) = false := by
  cases h1 : (('1' : Char) == c) with
  | false => simp [loopbackPat, List.isPrefixOf, h1]
  | true => exact absurd (eq_of_beq h1).symm hc

/-- Replacement at an exact occurrence of the pattern followed by clean text. -/
theorem replaceFuel_at_match (rep post : List Char) (fuel : Nat)
    (h : subContains loopbackPat post = false) :
    replaceLoopbackFuel rep (fuel + 1) (loopbackPat ++ post) = rep ++ post := by
  obtain ⟨c, rest, hcr⟩ : ∃ c rest, loopbackPat ++ post = c :: rest := by
    cases hp : loopbackPat ++ post with
    | nil => simp [loopbackPat] at hp
    | cons c rest => exact ⟨c, rest, rfl⟩
  rw [hcr, replaceFuel_cons_match rep fuel c rest
      (by rw [← hcr]; exact isPrefixOf_append_self loopbackPat post),
    ← hcr, List.drop_left, replaceFuel_of_not_contains rep post fuel h]

/-- Main replacement lemma: text of the shape pre, pattern, post with no
character 1 in pre and no pattern occurrence in post rewrites its unique
pattern occurrence to rep. -/
theorem replaceFuel_main (rep post : List Char) (hpost : subContains loopbackPat post = false) :
    ∀ (pre : List Char) (fuel : Nat), '1' ∉ pre →
      replaceLoopbackFuel rep (pre.length + fuel + 1) (pre ++ (loopbackPat ++ post))
        = pre ++ (rep ++ post) := by
  intro pre
  induction pre with
  | nil =>
    intro fuel _
    simpa using replaceFuel_at_match rep post fuel hpost
  | cons c pre ih =>
    intro fuel hmem
    have hc : c ≠ '1' := fun hEq => hmem (by rw [← hEq]; exact List.mem_cons_self c pre)
    have hlen : (c :: pre).length + fuel + 1 = (pre.length + fuel + 1) + 1 := by
      simp only [List.length_cons]; omega
    rw [List.cons_append, hlen,
      replaceFuel_cons_skip rep (pre.length + fuel + 1) c _ (isPrefixOf_cons_ne c _ hc),
      ih fuel (fun h => hmem (List.mem_cons_of_mem c h))]
    simp

/-- Setting a parameter makes it the value returned by lookup. -/
theorem getParam_setParam (ps : List (String × String)) (n v : String) :
    getParam (setParam ps n v) n = some v := by
  induction ps with
  | nil => simp [setParam, getParam]
  | cons p rest ih =>
    obtain ⟨k, w⟩ := p
    by_cases h : (k == n) = true
    · simp [setParam, h, getParam, List.find?]
    · simpa [setParam, h, getParam, List.find?] using ih

/-- Searching a filtered list for an element the filter rejects finds nothing. -/
theorem find?_filter_none {α : Type} (l : List α) (p q : α → Bool)
    (h : ∀ a, q a = true → p a = false) : (l.filter p).find? q = none := by
  induction l with
  | nil => rfl
  | cons a l ih =>
    by_cases hp : p a = true
    · have hq : q a = false := by
        cases hqa : q a with
        | false => rfl
        | true => rw [h a hqa] at hp; exact absurd hp (by simp)
      simp [List.filter_cons, hp, List.find?, hq, ih]
    · simp [List.filter_cons, hp, ih]

/-- Searching a filtered list for an element the filter keeps is searching
the original list. -/
theorem find?_filter_eq {α : Type} (l : List α) (p q : α → Bool)
    (h : ∀ a, q a = true → p a = true) : (l.filter p).find? q = l.find? q := by
  induction l with
  | nil => rfl
  | cons a l ih =>
    by_cases hp : p a = true
    · cases hq : q a with
      | true => simp [List.filter_cons, hp, List.find?, hq]
      | false => simp [List.filter_cons, hp, List.find?, hq, ih]
    · have hq : q a = false := by
        cases hqa : q a with
        | false => rfl
        | true => exact absurd (h a hqa) hp
      simp [List.filter_cons, hp, List.find?, hq, ih]

/-! Claim theorems. -/

/-- C5: every request with no session identity and a non-discovery path gets
status exactly 400 with the plain text body Session ID required. -/
theorem c5_missing_session (env : EnvModel) (req : ReqModel) (w : World)
    (hsid : jsFalsy (extractSessionId req.xSessionId req.sessionIdParam) = true)
    (hpath : isJsonVersionRequest req.pathname = false) :
    handle env req w = { status := 400, headers := [], body := .text "Session ID required" } := by
  simp [handle, hsid, hpath]

/-- Witness for C5 at a concrete sessionless non-discovery request. -/
theorem c5_missing_session_witness :
    handle ⟨none, none⟩ ⟨"GET", none, none, none, none, "example.com", "/foo", ""⟩
      ⟨"m", fun _ => .thrown "e", fun _ => ⟨200, [], ""⟩, ⟨101, [], .text ""⟩⟩
      = ⟨400, [], .text "Session ID required"⟩ :=
  c5_missing_session _ _ _ (by decide) (by decide)

/-- C9: every authentication failure on the discovery path yields the
structured 401 JSON body with error, message and instructions fields; the
plain text 401 fallback of the source is unreachable because the handler
fully determines the structured response under these conditions. -/
theorem c9_structured_auth_failure (env : EnvModel) (req : ReqModel) (w : World)
    (hsid : jsFalsy (extractSessionId req.xSessionId req.sessionIdParam) = true)
    (hpath : isJsonVersionRequest req.pathname = true)
    (hauth : (checkAuthentication env req.apiKeyParam).isAuthenticated = false) :
    handle env req w = jsonResponse 401 (.obj
      [("error", .str "Authentication required"),
       ("message", .str (checkAuthentication env req.apiKeyParam).message),
       ("instructions",
        .str "Add ?apiKey=YOUR_API_KEY to the URL or use Authorization header")]) := by
  simp [handle, hsid, hpath, hauth]

/-- Witness for C9 at a concrete unauthenticated discovery request. -/
theorem c9_structured_auth_failure_witness :
    handle ⟨none, none⟩ ⟨"GET", none, none, none, none, "example.com", "/json/version", ""⟩
      ⟨"m", fun _ => .thrown "e", fun _ => ⟨200, [], ""⟩, ⟨101, [], .text ""⟩⟩
      = jsonResponse 401 (.obj
        [("error", .str "Authentication required"),
         ("message", .str "API_KEY not configured. See README.md for instructions."),
         ("instructions",
          .str "Add ?apiKey=YOUR_API_KEY to the URL or use Authorization header")]) :=
  c9_structured_auth_failure _ _ _ (by decide) (by decide) (by decide)

/-- C1 counterexample: a POST request with no session identity to
/json/version is still routed to the discovery handler, so routing is not
equivalent to the method being GET together with the canonical path. -/
theorem c1_counterexample :
    ¬ (routeOf ⟨"POST", none, none, none, none, "example.com", "/json/version", ""⟩
        = Route.discovery
      ↔ (ReqModel.method ⟨"POST", none, none, none, none, "example.com", "/json/version", ""⟩
            = "GET"
          ∧ isJsonVersionRequest "/json/version" = true)) := by
  decide

/-- C1 amended: for every request with no session identity, the request is
routed to the discovery handler if and only if the path is exactly
/json/version or /json/version/, regardless of the HTTP method. -/
theorem c1_discovery_routing (req : ReqModel)
    (hsid : jsFalsy (extractSessionId req.xSessionId req.sessionIdParam) = true) :
    routeOf req = Route.discovery ↔ isJsonVersionRequest req.pathname = true := by
  by_cases hpath : isJsonVersionRequest req.pathname = true
  · simp [routeOf, hsid, hpath]
  · simp [routeOf, hsid, hpath]

/-- Witness for the amended C1 at a concrete sessionless request. -/
theorem c1_discovery_routing_witness :
    routeOf ⟨"POST", none, none, none, none, "example.com", "/json/version/", ""⟩
      = Route.discovery :=
  (c1_discovery_routing _ (by decide)).mpr (by decide)

/-- C8 counterexample: with the X-Session-ID header present but empty and
the sessionId query parameter set, the session identity is the query value,
not the header value, so a present header is not always the identity. -/
theorem c8_counterexample :
    extractSessionId (some "") (some "abc") = some "abc" ∧
      extractSessionId (some "") (some "abc") ≠ some "" := by
  decide

/-- C8 amended: the X-Session-ID header takes priority when present with a
nonempty value; when it is absent or empty, the sessionId query parameter
value is used; when neither input is present the result is absent. -/
theorem c8_session_precedence :
    (∀ h q, h ≠ "" → extractSessionId (some h) q = some h) ∧
      (∀ q, extractSessionId (some "") q = q) ∧
      (∀ q, extractSessionId none q = q) ∧
      extractSessionId none none = none := by
  refine ⟨?_, ?_, fun q => rfl, rfl⟩
  · intro h q hne
    simp [extractSessionId, hne]
  · intro q
    simp [extractSessionId]

/-- Witness for the amended C8 at concrete header and query values. -/
theorem c8_session_precedence_witness :
    extractSessionId (some "sess-1") (some "other") = some "sess-1" ∧
      extractSessionId (some "") (some "other") = some "other" ∧
      extractSessionId none (some "other") = some "other" ∧
      extractSessionId none none = none :=
  ⟨c8_session_precedence.1 "sess-1" (some "other") (by decide),
   c8_session_precedence.2.1 (some "other"),
   c8_session_precedence.2.2.1 (some "other"),
   c8_session_precedence.2.2.2⟩

/-- C10: an empty X-Session-ID header falls through to the sessionId query
parameter, and a request whose header and query values are both missing or
empty is classified as carrying no session identity: it is routed to the
discovery branch or the missing-session 400 branch, never to a backend. -/
theorem c10_empty_session_absent :
    (∀ q, extractSessionId (some "") q = q) ∧
      (∀ req : ReqModel,
        (req.xSessionId = none ∨ req.xSessionId = some "") →
        (req.sessionIdParam = none ∨ req.sessionIdParam = some "") →
        (routeOf req = Route.discovery ∨ routeOf req = Route.missingSession)) := by
  constructor
  · intro q
    simp [extractSessionId]
  · intro req hh hq
    have hfalsy : jsFalsy (extractSessionId req.xSessionId req.sessionIdParam) = true := by
      rcases hh with h | h <;> rcases hq with h2 | h2 <;>
        simp [extractSessionId, jsFalsy, h, h2]
    by_cases hpath : isJsonVersionRequest req.pathname = true
    · exact Or.inl (by simp [routeOf, hfalsy, hpath])
    · exact Or.inr (by simp [routeOf, hfalsy, hpath])

/-- Witness for C10 at a request with both session inputs empty. -/
theorem c10_empty_session_absent_witness :
    extractSessionId (some "") (some "qp") = some "qp" ∧
      (routeOf ⟨"GET", none, some "", some "", none, "h", "/page", ""⟩ = Route.discovery ∨
        routeOf ⟨"GET", none, some "", some "", none, "h", "/page", ""⟩
          = Route.missingSession) :=
  ⟨c10_empty_session_absent.1 (some "qp"),
   c10_empty_session_absent.2 _ (by decide) (by decide)⟩

/-- C2: the authentication check is authenticated exactly when development
mode is on, or a nonempty shared key is configured and the apiKey query
parameter equals it; with development mode off and no (truthy) key
configured, the decision fails closed with the configuration-error message
regardless of the supplied key. -/
theorem c2_auth_characterization (env : EnvModel) (key : Option String) :
    ((checkAuthentication env key).isAuthenticated = true ↔
      (env.DEV = some "true" ∨ ∃ k, env.API_KEY = some k ∧ k ≠ "" ∧ key = some k)) ∧
      ((env.DEV ≠ some "true" ∧ jsFalsy env.API_KEY = true) →
        (checkAuthentication env key).isAuthenticated = false ∧
          (checkAuthentication env key).message
            = "API_KEY not configured. See README.md for instructions.") := by
  constructor
  · by_cases hdev : env.DEV = some "true"
    · simp [checkAuthentication, hdev]
    · have hdev' : (env.DEV == some "true") = false := by simpa using hdev
      cases happ : env.API_KEY with
      | none => simp [checkAuthentication, hdev', hdev, happ, jsFalsy]
      | some k0 =>
        by_cases hk0 : k0 = ""
        · subst hk0
          simp [checkAuthentication, hdev', hdev, happ, jsFalsy]
        · have hfal : jsFalsy (some k0) = false := by simp [jsFalsy, hk0]
          cases key with
          | none => simp [checkAuthentication, hdev', hdev, happ, hfal, hk0]
          | some kp =>
            by_cases hkp : kp = k0
            · subst hkp
              simp [checkAuthentication, hdev', hdev, happ, hfal, hk0]
            · simp [checkAuthentication, hdev', hdev, happ, hfal, hk0, hkp]
  · rintro ⟨hdev, hfal⟩
    have hdev' : (env.DEV == some "true") = false := by simpa using hdev
    simp [checkAuthentication, hdev', hfal]

/-- Witness for C2: a matching key authenticates; with no key configured the
decision is the fail-closed configuration error. -/
theorem c2_auth_characterization_witness :
    (checkAuthentication { DEV := none, API_KEY := some "secret" }
        (some "secret")).isAuthenticated = true ∧
      (checkAuthentication { DEV := none, API_KEY := none }
        (some "anything")).isAuthenticated = false ∧
      (checkAuthentication { DEV := none, API_KEY := none } (some "anything")).message
        = "API_KEY not configured. See README.md for instructions." :=
  ⟨(c2_auth_characterization { DEV := none, API_KEY := some "secret" } (some "secret")).1.mpr
      (Or.inr ⟨"secret", rfl, by decide, rfl⟩),
   ((c2_auth_characterization { DEV := none, API_KEY := none } (some "anything")).2
      ⟨by decide, rfl⟩).1,
   ((c2_auth_characterization { DEV := none, API_KEY := none } (some "anything")).2
      ⟨by decide, rfl⟩).2⟩

/-- C4: a non-JSON backend discovery body containing the substring
max concurrent instance count yields a 429 whose JSON error field is
Too many concurrent browser sessions and whose details field is the raw
body; a non-JSON body containing neither recognized capacity phrase yields
a 500 whose plain text includes the raw body. -/
theorem c4_capacity_classification (extHost mintedId : String) (r : BackendResp)
    (hct : contentTypeIncludesJson r.contentType = false) :
    (jsIncludes "max concurrent instance count" r.textBody = true →
        (handleJsonVersionModel extHost mintedId (.resp r)).status = 429 ∧
        bodyField (handleJsonVersionModel extHost mintedId (.resp r)) "error"
          = some (.str "Too many concurrent browser sessions") ∧
        bodyField (handleJsonVersionModel extHost mintedId (.resp r)) "details"
          = some (.str r.textBody)) ∧
      (jsIncludes "no Container instance available" r.textBody = false →
        jsIncludes "max concurrent instance count" r.textBody = false →
        handleJsonVersionModel extHost mintedId (.resp r)
          = ⟨500, [], .text ("Container initialization failed: " ++ r.textBody)⟩) := by
  constructor
  · intro hmax
    refine ⟨?_, ?_, ?_⟩ <;>
      simp [handleJsonVersionModel, hct, hmax, bodyField, Json.getField, List.find?]
  · intro h1 h2
    simp [handleJsonVersionModel, hct, h1, h2]

/-- Witness for C4: one concrete capacity-exhausted body and one concrete
unrecognized body. -/
theorem c4_capacity_classification_witness :
    ((handleJsonVersionModel "h" "m"
        (.resp ⟨some "text/plain", "max concurrent instance count", .error "x"⟩)).status = 429 ∧
      bodyField (handleJsonVersionModel "h" "m"
        (.resp ⟨some "text/plain", "max concurrent instance count", .error "x"⟩)) "error"
          = some (.str "Too many concurrent browser sessions") ∧
      bodyField (handleJsonVersionModel "h" "m"
        (.resp ⟨some "text/plain", "max concurrent instance count", .error "x"⟩)) "details"
          = some (.str "max concurrent instance count")) ∧
      handleJsonVersionModel "h" "m" (.resp ⟨none, "boom", .error "x"⟩)
        = ⟨500, [], .text ("Container initialization failed: " ++ "boom")⟩ :=
  ⟨(c4_capacity_classification "h" "m"
      ⟨some "text/plain", "max concurrent instance count", .error "x"⟩ (by decide)).1 (by decide),
   (c4_capacity_classification "h" "m" ⟨none, "boom", .error "x"⟩ rfl).2 (by decide) (by decide)⟩

/-- C6: an error thrown by the backend fetch, and an error thrown while
parsing its JSON response, are each caught and converted into a 500
response describing the failure, with exactly one backend call made (no
retry). -/
theorem c6_discovery_errors_to_500 (extHost mintedId : String) (oracle : Nat → FetchOutcome)
    (e : String) :
    (oracle 0 = .thrown e →
      handleJsonVersionTrace extHost mintedId oracle
        = (⟨500, [], .text ("Failed to initialize browser container: " ++ e)⟩, 1)) ∧
      (∀ r : BackendResp, oracle 0 = .resp r →
        contentTypeIncludesJson r.contentType = true → r.jsonBody = .error e →
        handleJsonVersionTrace extHost mintedId oracle
          = (⟨500, [], .text ("Failed to initialize browser container: " ++ e)⟩, 1)) := by
  constructor
  · intro h
    simp [handleJsonVersionTrace, callBackend, h, handleJsonVersionModel]
  · intro r h hct hjson
    simp [handleJsonVersionTrace, callBackend, h, handleJsonVersionModel, hct, hjson]

/-- Witness for C6: a thrown fetch error and a JSON parse failure. -/
theorem c6_discovery_errors_to_500_witness :
    handleJsonVersionTrace "h" "m" (fun _ => .thrown "network down")
        = (⟨500, [], .text ("Failed to initialize browser container: " ++ "network down")⟩, 1) ∧
      handleJsonVersionTrace "h" "m"
          (fun _ => .resp ⟨some "application/json", "not json", .error "parse error"⟩)
        = (⟨500, [], .text ("Failed to initialize browser container: " ++ "parse error")⟩, 1) :=
  ⟨(c6_discovery_errors_to_500 "h" "m" (fun _ => .thrown "network down") "network down").1 rfl,
   (c6_discovery_errors_to_500 "h" "m"
      (fun _ => .resp ⟨some "application/json", "not json", .error "parse error"⟩) "parse error").2
     ⟨some "application/json", "not json", .error "parse error"⟩ rfl (by decide) rfl⟩

/-- C7: the proxied response has no content-length header, every other
header of the backend response is preserved, and the status code is
preserved. -/
theorem c7_proxy_headers (extHost : String) (resp : BackendHttpResp) :
    headerGet (containerFetchWithRewrite extHost resp).headers "content-length" = none ∧
      (∀ n, toLowerStr n ≠ "content-length" →
        headerGet (containerFetchWithRewrite extHost resp).headers n
          = headerGet (headersOf resp.headers) n) ∧
      (containerFetchWithRewrite extHost resp).status = resp.status := by
  refine ⟨?_, ?_, rfl⟩
  · have hlow : toLowerStr "content-length" = "content-length" := by decide
    show ((headerDelete (headersOf resp.headers) "content-length").find?
        (fun p => p.1 == toLowerStr "content-length")).map (fun p => p.2) = none
    unfold headerDelete
    rw [hlow]
    rw [find?_filter_none _ _ _ (fun a ha => by simp_all)]
    rfl
  · intro n hn
    have hlow : toLowerStr "content-length" = "content-length" := by decide
    show ((headerDelete (headersOf resp.headers) "content-length").find?
        (fun p => p.1 == toLowerStr n)).map (fun p => p.2)
      = ((headersOf resp.headers).find? (fun p => p.1 == toLowerStr n)).map (fun p => p.2)
    unfold headerDelete
    rw [hlow]
    rw [find?_filter_eq]
    intro a ha
    have ha2 : a.1 = toLowerStr n := by simpa using ha
    simp [ha2, hn]

/-- Witness for C7 at a concrete backend response carrying a
Content-Length header and another header. -/
theorem c7_proxy_headers_witness :
    headerGet (containerFetchWithRewrite "ext.example"
        ⟨200, [("Content-Length", "5"), ("X-Foo", "bar")], "ok"⟩).headers "content-length"
        = none ∧
      headerGet (containerFetchWithRewrite "ext.example"
          ⟨200, [("Content-Length", "5"), ("X-Foo", "bar")], "ok"⟩).headers "X-Foo"
        = headerGet (headersOf [("Content-Length", "5"), ("X-Foo", "bar")]) "X-Foo" ∧
      (containerFetchWithRewrite "ext.example"
          ⟨200, [("Content-Length", "5"), ("X-Foo", "bar")], "ok"⟩).status = 200 :=
  ⟨(c7_proxy_headers "ext.example" ⟨200, [("Content-Length", "5"), ("X-Foo", "bar")], "ok"⟩).1,
   (c7_proxy_headers "ext.example"
      ⟨200, [("Content-Length", "5"), ("X-Foo", "bar")], "ok"⟩).2.1 "X-Foo" (by decide),
   (c7_proxy_headers "ext.example" ⟨200, [("Content-Length", "5"), ("X-Foo", "bar")], "ok"⟩).2.2⟩

/-- C3 counterexample: when the backend reports a webSocketDebuggerUrl whose
host is not the internal loopback address, the rewrite leaves that host in
place, so the returned URL host is not the requesting external host. -/
theorem c3_counterexample :
    hostOfSerialized (rewriteDebuggerUrl "proxy.example" "abc123"
        ⟨"ws", "example.com:1234", "/devtools/browser/x", []⟩)
      = some "example.com:1234" ∧ ("example.com:1234" : String) ≠ "proxy.example" := by
  decide

/-- C3 amended: for a backend webSocketDebuggerUrl whose host is the
internal loopback address 127.0.0.1:3000 (and whose scheme, path and query
do not themselves contain the loopback address), the returned URL is
exactly the serialization of that URL with host replaced by the requesting
external host and the sessionId parameter set to the minted identity. -/
theorem c3_discovery_url_rewrite (extHost sid : String) (u : UrlModel)
    (hhost : u.host = "127.0.0.1:3000")
    (hscheme : '1' ∉ u.scheme.data)
    (hrest : subContains loopbackPat
        (u.pathname ++ paramsToStr (setParam u.params "sessionId" sid)).data = false) :
    rewriteDebuggerUrl extHost sid u
        = UrlModel.toStr (setUrlParam { u with host := extHost } "sessionId" sid) ∧
      getParam (setUrlParam { u with host := extHost } "sessionId" sid).params "sessionId"
        = some sid ∧
      (setUrlParam { u with host := extHost } "sessionId" sid).host = extHost := by
  refine ⟨?_, getParam_setParam u.params "sessionId" sid, rfl⟩
  have hqs : (UrlModel.toStr (setUrlParam u "sessionId" sid)).data
      = (u.scheme.data ++ "://".data)
        ++ (loopbackPat
          ++ (u.pathname ++ paramsToStr (setParam u.params "sessionId" sid)).data) := by
    simp [UrlModel.toStr, setUrlParam, str_data_append, hhost, loopback_data, loopbackPat,
      List.append_assoc]
  have hqs2 : (UrlModel.toStr (setUrlParam { u with host := extHost } "sessionId" sid)).data
      = (u.scheme.data ++ "://".data)
        ++ (extHost.data
          ++ (u.pathname ++ paramsToStr (setParam u.params "sessionId" sid)).data) := by
    simp [UrlModel.toStr, setUrlParam, str_data_append, List.append_assoc]
  have hpre : '1' ∉ (u.scheme.data ++ "://".data) := by
    intro hmem
    rcases List.mem_append.mp hmem with h | h
    · exact hscheme h
    · exact absurd h (by decide)
  have hlen : (UrlModel.toStr (setUrlParam u "sessionId" sid)).data.length
      = (u.scheme.data ++ "://".data).length
        + (13 + (u.pathname ++ paramsToStr (setParam u.params "sessionId" sid)).data.length)
        + 1 := by
    rw [hqs]
    simp [List.length_append, loopbackPat]
    omega
  show rewriteHost extHost (UrlModel.toStr (setUrlParam u "sessionId" sid)) = _
  unfold rewriteHost replaceLoopback
  rw [hlen, hqs,
    replaceFuel_main extHost.data
      (u.pathname ++ paramsToStr (setParam u.params "sessionId" sid)).data hrest
      (u.scheme.data ++ "://".data)
      (13 + (u.pathname ++ paramsToStr (setParam u.params "sessionId" sid)).data.length)
      hpre,
    ← hqs2]

/-- Witness for the amended C3 at a concrete loopback discovery URL. -/
theorem c3_discovery_url_rewrite_witness :
    rewriteDebuggerUrl "example.workers.dev" "abc-123"
        ⟨"ws", "127.0.0.1:3000", "/devtools/browser/u1", []⟩
        = UrlModel.toStr (setUrlParam
          ⟨"ws", "example.workers.dev", "/devtools/browser/u1", []⟩ "sessionId" "abc-123") ∧
      getParam (setUrlParam ⟨"ws", "example.workers.dev", "/devtools/browser/u1", []⟩
          "sessionId" "abc-123").params "sessionId" = some "abc-123" ∧
      (setUrlParam ⟨"ws", "example.workers.dev", "/devtools/browser/u1", []⟩
          "sessionId" "abc-123").host = "example.workers.dev" :=
  c3_discovery_url_rewrite "example.workers.dev" "abc-123"
    ⟨"ws", "127.0.0.1:3000", "/devtools/browser/u1", []⟩ rfl (by decide) (by decide)

end OpenBrowser
